import Mathlib

/-!
Verification of the quail DG / ADER-DG residual-assembly core.

This file gives a shallow embedding, over exact rationals, of the residual
assembly routines of `src/solver/base.py`, `src/solver/DG.py` and
`src/solver/ADERDG.py`, together with the parts of their collaborators that
the properties below need.  Element-local coefficient arrays of shape
`[nb, ns]` are embedded as functions `Fin nb → Fin ns → ℚ`; per-quadrature
arrays of shape `[nq, ns]` as `Fin nq → Fin ns → ℚ`.  Routines of
collaborator modules that are not part of the sources at hand (for example
`solver/tools.py` and `numerics/basis/ader_tools.py`) are modelled from the
specification and are marked as such in their doc comments.  Python
exceptions are embedded with `Except`.
-/

/-- Python-level failure outcomes relevant to the embedded routines.
`nameError` models evaluation of an unbound name, `incompatibleError`
models `errors.IncompatibleError` raised by the compatibility checks. -/
inductive PyErr where
  | nameError : PyErr
  | incompatibleError : PyErr
  deriving DecidableEq, Repr

/-- Modelled from the spec: `solver.tools.calculate_inviscid_flux_boundary_integral`
is not among the sources at hand (only its call sites in `DG.py` and
`ADERDG.py` are).  Per the spec it is the boundary-integral contraction of the
numerical flux: flux times test function times quadrature weight, summed over
the face quadrature points (the face-normal magnitude is already folded into
the numerical flux, which receives the unnormalised normals).  Entry `[k, s]`
is `sum_q basis_val[q, k] * quad_wts[q] * Fq[q, s]`. -/
def calculate_inviscid_flux_boundary_integral {nq nb ns : ℕ}
    (basis_val : Fin nq → Fin nb → ℚ) (quad_wts : Fin nq → ℚ)
    (Fq : Fin nq → Fin ns → ℚ) : Fin nb → Fin ns → ℚ :=
  fun k s => ∑ q, basis_val q k * quad_wts q * Fq q s

/-- Modelled from the spec: `numerics.helpers.helpers.evaluate_state` is not
among the sources at hand.  It interpolates coefficient data to the
quadrature points by the basis-value matrix product
`Uq = matmul(basis_val, Uc)`. -/
def evaluate_state {nq nb ns : ℕ}
    (Uc : Fin nb → Fin ns → ℚ) (basis_val : Fin nq → Fin nb → ℚ) :
    Fin nq → Fin ns → ℚ :=
  fun q s => ∑ k, basis_val q k * Uc k s

/-- Embedding of `DG.get_interior_face_residual` (src/solver/DG.py, lines
599-640).  The mesh lookup of the face's element pair only selects which rows
of the precomputed tables are used, so the local face ids, tables, normals
and states are passed directly.  The numerical flux function
`physics.get_conv_flux_numerical` is an external physics collaborator and is
a parameter.  Returns the updated pair `(R_L, R_R)`: one flux array `Fq` is
computed per face, its contraction is subtracted from the left residual and
added to the right residual. -/
def dg_get_interior_face_residual {nq nb ns dim : ℕ}
    (convFluxSwitch : Bool)
    (faces_to_basisL faces_to_basisR : ℕ → Fin nq → Fin nb → ℚ)
    (quad_wts : Fin nq → ℚ)
    (get_conv_flux_numerical :
      (Fin nq → Fin ns → ℚ) → (Fin nq → Fin ns → ℚ) →
      (Fin nq → Fin dim → ℚ) → Fin nq → Fin ns → ℚ)
    (normals : Fin nq → Fin dim → ℚ)
    (faceL_ID faceR_ID : ℕ)
    (Uc_L Uc_R R_L R_R : Fin nb → Fin ns → ℚ) :
    (Fin nb → Fin ns → ℚ) × (Fin nb → Fin ns → ℚ) :=
  let basis_valL := faces_to_basisL faceL_ID
  let basis_valR := faces_to_basisR faceR_ID
  let UqL := evaluate_state Uc_L basis_valL
  let UqR := evaluate_state Uc_R basis_valR
  if convFluxSwitch then
    let Fq := get_conv_flux_numerical UqL UqR normals
    (fun k s => R_L k s -
        calculate_inviscid_flux_boundary_integral basis_valL quad_wts Fq k s,
     fun k s => R_R k s +
        calculate_inviscid_flux_boundary_integral basis_valR quad_wts Fq k s)
  else
    (R_L, R_R)

/-- Embedding of the local-face-id to space-time-face-id mapping inlined in
`ADERDG.calculate_residual_iface` and `ADERDG.calculate_residual_bface`
(src/solver/ADERDG.py, lines 517-528 and 608-613): face 0 maps to space-time
face 3 and face 1 to space-time face 1.  For any other face id the source
executes `return IncompatibleError`; the name `IncompatibleError` is unbound
in the module (`ADERDG.py` has `import errors` but never binds the bare
name), so evaluating that line raises a Python `NameError`. -/
def face_index_spacetime (face : ℕ) : Except PyErr ℕ :=
  if face = 0 then Except.ok 3
  else if face = 1 then Except.ok 1
  else Except.error PyErr.nameError

/-- Embedding of `ADERDG.calculate_residual_iface` (src/solver/ADERDG.py,
lines 494-567).  The space-time interpolation tables are selected by the
mapped space-time face ids, while the contraction into the residuals uses
the spatial face tables; a single numerical flux array `Fq` is evaluated at
the space-time face quadrature points, then subtracted from the left and
added to the right element residual. -/
def ader_calculate_residual_iface {nq nb nbst ns dim : ℕ}
    (convFluxSwitch : Bool)
    (faces_to_basisL faces_to_basisR : ℕ → Fin nq → Fin nb → ℚ)
    (faces_to_basisL_st faces_to_basisR_st : ℕ → Fin nq → Fin nbst → ℚ)
    (quad_wts_st : Fin nq → ℚ)
    (convFluxNumerical :
      (Fin nq → Fin ns → ℚ) → (Fin nq → Fin ns → ℚ) →
      (Fin nq → Fin dim → ℚ) → Fin nq → Fin ns → ℚ)
    (normals : Fin nq → Fin dim → ℚ)
    (faceL faceR : ℕ)
    (UpL UpR : Fin nbst → Fin ns → ℚ)
    (RL RR : Fin nb → Fin ns → ℚ) :
    Except PyErr ((Fin nb → Fin ns → ℚ) × (Fin nb → Fin ns → ℚ)) := do
  let faceL_st ← face_index_spacetime faceL
  let faceR_st ← face_index_spacetime faceR
  let basis_valL := faces_to_basisL faceL
  let basis_valR := faces_to_basisR faceR
  let basis_valL_st := faces_to_basisL_st faceL_st
  let basis_valR_st := faces_to_basisR_st faceR_st
  let UqL := evaluate_state UpL basis_valL_st
  let UqR := evaluate_state UpR basis_valR_st
  if convFluxSwitch then
    let Fq := convFluxNumerical UqL UqR normals
    pure
      (fun k s => RL k s -
          calculate_inviscid_flux_boundary_integral basis_valL quad_wts_st Fq k s,
       fun k s => RR k s +
          calculate_inviscid_flux_boundary_integral basis_valR quad_wts_st Fq k s)
  else
    pure (RL, RR)

/-- Concrete interior-face basis table (two basis functions, one quadrature
point, value one half everywhere) used to evaluate the embedded routines on
explicit inputs. -/
def wBasisHalf : ℕ → Fin 1 → Fin 2 → ℚ := fun _ _ _ => 1/2

/-- Concrete space-time face basis table used to evaluate the embedded
routines on explicit inputs. -/
def wBasisOne : ℕ → Fin 1 → Fin 2 → ℚ := fun _ _ _ => 1

/-- Concrete single-point quadrature weight array. -/
def wq1 : Fin 1 → ℚ := fun _ => 1

/-- Concrete numerical flux function (sum of the two traces) used to
evaluate the embedded routines on explicit inputs. -/
def wFluxSum : (Fin 1 → Fin 1 → ℚ) → (Fin 1 → Fin 1 → ℚ) →
    (Fin 1 → Fin 1 → ℚ) → Fin 1 → Fin 1 → ℚ :=
  fun uL uR _ q s => uL q s + uR q s

/-- Concrete constant coefficient array of shape `[2, 1]`. -/
def wConst2 (c : ℚ) : Fin 2 → Fin 1 → ℚ := fun _ _ => c

/-- Concrete constant array of shape `[1, 1]` (used for normals). -/
def wScal (c : ℚ) : Fin 1 → Fin 1 → ℚ := fun _ _ => c

/-- Embedding of the left face-basis table construction of
`InteriorFaceHelpers.get_basis_and_geom_data` (src/solver/DG.py, lines
317-364) and `IFaceOperatorsADER.get_basis_and_geom_data`
(src/solver/ADERDG.py, lines 81-103): for each local face id the table row
`i` is the face basis evaluated at quadrature point `quad_pts[i]`.  The
per-point basis evaluation `basis.get_basis_face_val_grads` belongs to the
basis collaborator (`numerics/basis`, not among the sources at hand) and is
abstracted as `faceVal`. -/
def faces_to_basisL_build {P : Type} {nb : ℕ}
    (faceVal : ℕ → P → Fin nb → ℚ) (quad_pts : List P) (face_ID : ℕ) :
    Fin quad_pts.length → Fin nb → ℚ :=
  fun i k => faceVal face_ID (quad_pts.get i) k

/-- Embedding of the right face-basis table construction of the same two
routines: the source evaluates the basis at `quad_pts[::-1]`, the same
quadrature points in reversed order. -/
def faces_to_basisR_build {P : Type} {nb : ℕ}
    (faceVal : ℕ → P → Fin nb → ℚ) (quad_pts : List P) (face_ID : ℕ) :
    Fin quad_pts.length → Fin nb → ℚ :=
  fun i k =>
    faceVal face_ID (quad_pts.reverse.get ⟨i.val, by simp⟩) k

/-- Interior-face connectivity record of the mesh collaborator: the left
and right element ids and the corresponding local face ids. -/
structure MeshInteriorFace where
  elemL_ID : ℕ
  elemR_ID : ℕ
  faceL_ID : ℕ
  faceR_ID : ℕ

/-- Boundary-face record of the mesh collaborator: the adjacent element id
and its local face id. -/
structure MeshBoundaryFace where
  elem_ID : ℕ
  face_ID : ℕ

/-- Mesh connectivity consumed by the residual assembler: element count,
interior face list and named groups of boundary faces (groups are embedded
positionally). -/
structure MeshTopology where
  num_elems : ℕ
  interior_faces : List MeshInteriorFace
  boundary_groups : List (List MeshBoundaryFace)

/-- Dispatch record for the three abstract per-item residual methods of
`SolverBase` (src/solver/base.py, lines 104-117), implemented by the `DG`
and `ADERDG` subclasses.  Element-local arrays have an abstract type `α`.
`residual_elem` also receives and returns the preallocated source scratch
array `elem_helpers.Sq`, which the Python implementation mutates in place.
`residual_iface` returns the updated left and right residual arrays (the
Python implementations mutate `R[elemL]` and `R[elemR]` in place through
the views passed in). -/
structure SolverMethods (α : Type) where
  residual_bface : ℕ → ℕ → α → α → α
  residual_elem : ℕ → α → α → α → α × α
  residual_iface : ℕ → α → α → α → α → α × α

/-- Heap footprint of one full residual-assembly call: the caller's state
array `U`, the residual array `R`, and the preallocated per-element source
scratch array `Sq` of the element helpers. -/
structure SolverHeap (α : Type) where
  U : List α
  R : List α
  Sq : α

/-- Zeroing of an array while keeping its shape: models `R[:] = 0.`
applied to an array of the given shape (src/solver/base.py, line 207). -/
def zero_like {α : Type} [Zero α] (l : List α) : List α :=
  l.map (fun _ => 0)

/-- Embedding of `SolverBase.calculate_residual_bfaces` (src/solver/base.py,
lines 262-287): for every boundary group and every boundary face in it,
`R[elem] = self.calculate_residual_bface(BFG, ibface, U[elem], R[elem])`. -/
def calculate_residual_bfaces {α : Type} [Zero α] (s : SolverMethods α)
    (m : MeshTopology) (U R : List α) : List α :=
  m.boundary_groups.enum.foldl
    (fun R bg =>
      bg.2.enum.foldl
        (fun R bf =>
          R.set bf.2.elem_ID
            (s.residual_bface bg.1 bf.1 (U.getD bf.2.elem_ID 0)
              (R.getD bf.2.elem_ID 0)))
        R)
    R

/-- Embedding of `SolverBase.calculate_residual_elems` (src/solver/base.py,
lines 215-231): for every element,
`R[elem] = self.calculate_residual_elem(elem, U[elem], R[elem])`; the
source scratch array written by the per-element routine is threaded
through. -/
def calculate_residual_elems {α : Type} [Zero α] (s : SolverMethods α)
    (m : MeshTopology) (U R : List α) (Sq : α) : List α × α :=
  (List.range m.num_elems).foldl
    (fun RS e =>
      let out := s.residual_elem e (U.getD e 0) (RS.1.getD e 0) RS.2
      (RS.1.set e out.1, out.2))
    (R, Sq)

/-- Embedding of `SolverBase.calculate_residual_ifaces` (src/solver/base.py,
lines 233-260): for every interior face the per-face routine receives the
left/right state and residual arrays; the source relies on the routine
mutating `R[elemL]` and `R[elemR]` in place, embedded here by writing the
returned pair back into the residual list. -/
def calculate_residual_ifaces {α : Type} [Zero α] (s : SolverMethods α)
    (m : MeshTopology) (U R : List α) : List α :=
  m.interior_faces.enum.foldl
    (fun R f =>
      let out := s.residual_iface f.1 (U.getD f.2.elemL_ID 0)
        (U.getD f.2.elemR_ID 0) (R.getD f.2.elemL_ID 0)
        (R.getD f.2.elemR_ID 0)
      (R.set f.2.elemL_ID out.1).set f.2.elemR_ID out.2)
    R

/-- Embedding of `SolverBase.calculate_residual` (src/solver/base.py, lines
186-213): when the incoming residual array is `None` a fresh array is
allocated by `R = np.copy(U)`; the array is then zeroed by `R[:] = 0.`,
the boundary-face, element and interior-face contributions are accumulated
in that order, and the completed array is returned.  The result records the
final heap; the Python return value is the field `R`. -/
def calculate_residual {α : Type} [Zero α] (s : SolverMethods α)
    (m : MeshTopology) (U : List α) (Ropt : Option (List α)) (Sq : α) :
    SolverHeap α :=
  let R := Ropt.getD U
  let R := zero_like R
  let R := calculate_residual_bfaces s m U R
  let RS := calculate_residual_elems s m U R Sq
  let R := calculate_residual_ifaces s m U RS.1
  { U := U, R := R, Sq := RS.2 }

/-- Embedding of `DG.get_element_residual` (src/solver/DG.py, lines
562-597).  The state interpolation, physics flux/source evaluations and
integral contractions delegate to collaborators that are not among the
sources at hand (`solver/tools.py`, `numerics/helpers`), abstracted as the
composite parameters `fluxVolumeIntegral` (interpolation, interior flux and
volume contraction for one element), `sourceEval` (interpolation and
additive source evaluation, `physics.eval_source_terms`, into the zeroed
scratch array) and `sourceIntegral` (source contraction).  When the
convective-flux switch is on, the flux volume integral is added to the
element residual; when the source switch is on, the scratch array `Sq` is
zeroed, repopulated and its contraction added.  Both updated arrays are
returned. -/
def dg_get_element_residual {α : Type} [Add α] [Zero α]
    (convFluxSwitch sourceSwitch : Bool)
    (fluxVolumeIntegral : ℕ → α → α)
    (sourceEval : ℕ → α → α)
    (sourceIntegral : ℕ → α → α)
    (elem_ID : ℕ) (Uc R_elem : α) (Sq : α) : α × α :=
  let R1 := if convFluxSwitch then R_elem + fluxVolumeIntegral elem_ID Uc
    else R_elem
  if sourceSwitch then
    let Sq0 : α := 0
    let Sq1 := Sq0 + sourceEval elem_ID Uc
    (R1 + sourceIntegral elem_ID Sq1, Sq1)
  else
    (R1, Sq)

/-- Embedding of `DG.get_boundary_face_residual` (src/solver/DG.py, lines
642-679): when the convective-flux switch is on, the contraction of the
boundary-condition flux (state interpolation, boundary condition and
contraction are collaborator calls, abstracted as the composite
`bfaceFluxIntegral`) is subtracted from the adjacent element's residual;
otherwise the residual is returned unchanged. -/
def dg_get_boundary_face_residual {α : Type} [Sub α]
    (convFluxSwitch : Bool)
    (bfaceFluxIntegral : ℕ → ℕ → α → α)
    (bgroup_num bface_ID : ℕ) (Uc R_B : α) : α :=
  if convFluxSwitch then R_B - bfaceFluxIntegral bgroup_num bface_ID Uc
  else R_B

/-- Dispatch of the three `DG` per-item residual routines as the abstract
methods consumed by `SolverBase.calculate_residual`.  `face_ids` is the
mesh lookup giving each interior face's left and right local face ids, and
`normals_ifaces` the precomputed per-face normals. -/
def dg_solver_methods {nq nb ns dim : ℕ}
    (convFluxSwitch sourceSwitch : Bool)
    (faces_to_basisL faces_to_basisR : ℕ → Fin nq → Fin nb → ℚ)
    (quad_wts : Fin nq → ℚ)
    (numflux : (Fin nq → Fin ns → ℚ) → (Fin nq → Fin ns → ℚ) →
      (Fin nq → Fin dim → ℚ) → Fin nq → Fin ns → ℚ)
    (normals_ifaces : ℕ → Fin nq → Fin dim → ℚ)
    (face_ids : ℕ → ℕ × ℕ)
    (fluxVolumeIntegral sourceEval sourceIntegral :
      ℕ → (Fin nb → Fin ns → ℚ) → Fin nb → Fin ns → ℚ)
    (bfaceFluxIntegral : ℕ → ℕ → (Fin nb → Fin ns → ℚ) → Fin nb → Fin ns → ℚ) :
    SolverMethods (Fin nb → Fin ns → ℚ) where
  residual_bface := dg_get_boundary_face_residual convFluxSwitch
    bfaceFluxIntegral
  residual_elem := dg_get_element_residual convFluxSwitch sourceSwitch
    fluxVolumeIntegral sourceEval sourceIntegral
  residual_iface := fun i UL UR RL RR =>
    dg_get_interior_face_residual convFluxSwitch faces_to_basisL
      faces_to_basisR quad_wts numflux (normals_ifaces i) (face_ids i).1
      (face_ids i).2 UL UR RL RR

/-- Concrete one-element mesh with no interior or boundary faces, used to
evaluate the embedded assembly on explicit inputs. -/
def wMesh1 : MeshTopology :=
  { num_elems := 1, interior_faces := [], boundary_groups := [] }

/-- Concrete DG method dispatch (both switches on, constant collaborator
integrals, source evaluation returning the constant array 7) used to
evaluate the embedded assembly on explicit inputs. -/
def wMethods : SolverMethods (Fin 1 → Fin 1 → ℚ) :=
  dg_solver_methods true true
    (fun _ (_ : Fin 1) (_ : Fin 1) => (1:ℚ))
    (fun _ (_ : Fin 1) (_ : Fin 1) => (1:ℚ)) wq1 wFluxSum
    (fun _ => wScal 1) (fun _ => (0, 1)) (fun _ _ => wScal 1)
    (fun _ _ => wScal 7) (fun _ u => u) (fun _ _ _ => wScal 1)

/-- Reference-element shape kinds of the basis collaborator (`general.py`,
not among the sources at hand) that the compatibility checks compare. -/
inductive ShapeKind where
  | Segment : ShapeKind
  | Quadrilateral : ShapeKind
  | Triangle : ShapeKind
  deriving DecidableEq, Repr

/-- Modal-or-nodal classification of a basis family. -/
inductive BasisModality where
  | Modal : BasisModality
  | Nodal : BasisModality
  deriving DecidableEq, Repr

/-- Node family kinds consumed by the compatibility checks. -/
inductive NodeKind where
  | Equidistant : NodeKind
  | GaussLegendre : NodeKind
  | GaussLobatto : NodeKind
  deriving DecidableEq, Repr

/-- Time-integration scheme kinds consumed by `ADERDG.__init__`. -/
inductive StepperKind where
  | ADER : StepperKind
  | RK4 : StepperKind
  | FE : StepperKind
  deriving DecidableEq, Repr

/-- The configuration facts read by the setup compatibility checks:
the mesh geometric-basis shape, the solution-basis shape and modality, and
the `InterpolateIC`, `NodeType`, `InterpolateFlux` and `TimeScheme`
parameters. -/
structure SolverConfig where
  gbasis_shape : ShapeKind
  basis_shape : ShapeKind
  basis_modality : BasisModality
  interpolate_ic : Bool
  node_type : NodeKind
  interpolate_flux : Bool
  time_scheme : StepperKind
  deriving DecidableEq, Repr

/-- A constructed solver object: the record returned only when every setup
check passed (`operators_precomputed` models that
`precompute_matrix_operators` has run on it). -/
structure ConstructedSolver where
  config : SolverConfig
  operators_precomputed : Bool
  deriving DecidableEq, Repr

/-- Embedding of `SolverBase.check_compatibility` (src/solver/base.py, lines
88-102): raise `errors.IncompatibleError` when the mesh geometric-basis
shape differs from the solution-basis shape, when `InterpolateIC` is
requested with a non-nodal basis, or when Gauss-Lobatto nodes are combined
with a triangle shape. -/
def check_compatibility (c : SolverConfig) : Except PyErr Unit :=
  if c.gbasis_shape ≠ c.basis_shape then
    Except.error PyErr.incompatibleError
  else if c.interpolate_ic ∧ c.basis_modality ≠ BasisModality.Nodal then
    Except.error PyErr.incompatibleError
  else if c.node_type = NodeKind.GaussLobatto ∧
      c.basis_shape = ShapeKind.Triangle then
    Except.error PyErr.incompatibleError
  else
    Except.ok ()

/-- Embedding of `ADERDG.check_compatibility` (src/solver/ADERDG.py, lines
353-365): the base checks via `super()`, then `errors.IncompatibleError`
when `InterpolateFlux` is requested with a non-nodal basis. -/
def ader_check_compatibility (c : SolverConfig) : Except PyErr Unit := do
  check_compatibility c
  if c.interpolate_flux ∧ c.basis_modality ≠ BasisModality.Nodal then
    Except.error PyErr.incompatibleError
  else
    Except.ok ()

/-- Embedding of the construction sequence of `SolverBase.__init__`
(src/solver/base.py, lines 28-83): stepper/basis/quadrature setup (pure
bookkeeping on the configuration), then `check_compatibility`, then
operator precomputation and state initialisation; a raised check aborts
`__init__`, so no object is returned. -/
def solver_base_construct (c : SolverConfig) : Except PyErr ConstructedSolver := do
  check_compatibility c
  pure { config := c, operators_precomputed := true }

/-- Embedding of the construction sequence of `ADERDG.__init__`
(src/solver/ADERDG.py, lines 281-348): the time-scheme guard at line 303
raises `errors.IncompatibleError` unless the scheme is ADER, then
`check_compatibility` (base checks plus the `InterpolateFlux` check) runs,
then operators are precomputed; a raise aborts construction. -/
def ader_solver_construct (c : SolverConfig) : Except PyErr ConstructedSolver := do
  if c.time_scheme ≠ StepperKind.ADER then
    throw PyErr.incompatibleError
  ader_check_compatibility c
  pure { config := c, operators_precomputed := true }

/-- One of the three incompatibilities listed by the configuration-error
taxonomy: shape mismatch, `InterpolateIC` with a non-nodal basis, or
Gauss-Lobatto nodes on a triangle. -/
def base_incompatible (c : SolverConfig) : Prop :=
  c.gbasis_shape ≠ c.basis_shape ∨
  (c.interpolate_ic ∧ c.basis_modality ≠ BasisModality.Nodal) ∨
  (c.node_type = NodeKind.GaussLobatto ∧ c.basis_shape = ShapeKind.Triangle)

instance (c : SolverConfig) : Decidable (base_incompatible c) := by
  unfold base_incompatible
  infer_instance

/-- Full compatibility for ADER-DG construction: ADER time scheme, none of
the three base incompatibilities, and no `InterpolateFlux`-with-modal-basis
incompatibility. -/
def ader_compatible (c : SolverConfig) : Prop :=
  c.time_scheme = StepperKind.ADER ∧ ¬ base_incompatible c ∧
  ¬(c.interpolate_flux ∧ c.basis_modality ≠ BasisModality.Nodal)

instance (c : SolverConfig) : Decidable (ader_compatible c) := by
  unfold ader_compatible
  infer_instance

/-- Embedding of `ADERDG.calculate_residual_bface` (src/solver/ADERDG.py,
lines 569-646).  After the operator unpacking, the local face id is mapped
to the space-time face id (faces other than 0 and 1 hit the unbound
`IncompatibleError` name, a `NameError`); the interior state is
interpolated with the space-time table, the boundary condition produces the
flux (the per-temporal-point BC loop is an external physics collaborator,
abstracted as `boundary_flux`), and its contraction with the spatial face
table is subtracted from the adjacent element's residual. -/
def ader_calculate_residual_bface {nq nb nbst ns : ℕ}
    (convFluxSwitch : Bool)
    (faces_to_basis : ℕ → Fin nq → Fin nb → ℚ)
    (faces_to_basis_st : ℕ → Fin nq → Fin nbst → ℚ)
    (quad_wts_st : Fin nq → ℚ)
    (boundary_flux : (Fin nq → Fin ns → ℚ) → Fin nq → Fin ns → ℚ)
    (face : ℕ)
    (U : Fin nbst → Fin ns → ℚ) (R : Fin nb → Fin ns → ℚ) :
    Except PyErr (Fin nb → Fin ns → ℚ) := do
  let face_st ← face_index_spacetime face
  let basis_val := faces_to_basis face
  let basis_val_st := faces_to_basis_st face_st
  let UqI := evaluate_state U basis_val_st
  if convFluxSwitch then
    let Fq := boundary_flux UqI
    pure (fun k s => R k s -
      calculate_inviscid_flux_boundary_integral basis_val quad_wts_st Fq k s)
  else
    pure R

/-- Embedding of the THINC reconstruction of the left interface state in
`LaxFriedrichs_THINC.compute_flux` (src/physics/scalar/functions.py, lines
876-897) at one face point, float literals taken as exact rationals.  The
left and right first-component states are clamped to the interval `[0, 1]`;
when the clamped left state is more than `1e-3` away from both 0 and 1, the
state entry `UqL[ll,0,0]` is overwritten in place with the reconstructed
value `0.5*(1 + tanh(beta*(sigma + xx)))`; otherwise it is left unchanged.
numpy's `exp`, `log` and `tanh` are external library functions, passed as
parameters. -/
def thinc_reconstruct_L (npexp nplog nptanh : ℚ → ℚ) (uL uR : ℚ) : ℚ :=
  let beta : ℚ := 23/10
  let varepsilon : ℚ := 1/1000
  let Ull := min 1 (max 0 uL)
  let Urr := min 1 (max 0 uR)
  if varepsilon < |Ull| ∧ varepsilon < |Ull - 1| then
    let sigma := (Urr - Ull)/(|Urr - Ull| + 1/1000000000000000)
    let A := npexp (2*beta*sigma)
    let B := npexp (2*beta*Ull*sigma)
    let xx := 1/(2*beta) *
      nplog ((B - 1 + 1/1000000000000000)/(A - B + 1/1000000000000000))
    (1/2)*(1 + nptanh (beta*(sigma + xx)))
  else
    uL

/-- Embedding of the THINC reconstruction of the right interface state in
the same routine: condition and reconstruction on the clamped right state,
with `UqR[ll,0,0]` overwritten by `0.5*(1 + tanh(beta*xx))`. -/
def thinc_reconstruct_R (npexp nplog nptanh : ℚ → ℚ) (uL uR : ℚ) : ℚ :=
  let beta : ℚ := 23/10
  let varepsilon : ℚ := 1/1000
  let Ull := min 1 (max 0 uL)
  let Urr := min 1 (max 0 uR)
  if varepsilon < |Urr| ∧ varepsilon < |Urr - 1| then
    let sigma := (Urr - Ull)/(|Urr - Ull| + 1/1000000000000000)
    let A := npexp (2*beta*sigma)
    let B := npexp (2*beta*Urr*sigma)
    let xx := 1/(2*beta) *
      nplog ((B - 1 + 1/1000000000000000)/(A - B + 1/1000000000000000))
    (1/2)*(1 + nptanh (beta*xx))
  else
    uR

/-- Embedding of `LaxFriedrichs_THINC.compute_flux`
(src/physics/scalar/functions.py, lines 866-918) at one face quadrature
point for a scalar state.  The projected physical flux
(`physics.get_conv_flux_projected`) and the maximum wave speed
(`physics.compute_variable` with `flag_non_physical=True`) are physics
collaborators, passed as parameters.  Returns the numerical flux together
with the two state entries as left behind in the caller's `UqL`/`UqR`
arrays, which the routine mutates in place. -/
def laxfriedrichs_thinc_compute_flux (npexp nplog nptanh : ℚ → ℚ)
    (flux_projected : ℚ → ℚ) (max_wave_speed : ℚ → ℚ)
    (n_mag : ℚ) (uL uR : ℚ) : ℚ × ℚ × ℚ :=
  let uL1 := thinc_reconstruct_L npexp nplog nptanh uL uR
  let uR1 := thinc_reconstruct_R npexp nplog nptanh uL uR
  let FqL := flux_projected uL1
  let FqR := flux_projected uR1
  let dUq := uR1 - uL1
  let a := max (max_wave_speed uL1) (max_wave_speed uR1)
  (n_mag*((1/2)*(FqL + FqR) - (1/2)*a*dUq), uL1, uR1)

/-- Embedding of `np.linalg.inv` for exact rational matrices by the
adjugate formula; on an invertible input it returns the two-sided inverse
(numpy raises `LinAlgError` on singular input, which the properties below
exclude through the nonzero-determinant hypothesis). -/
def np_linalg_inv {n : ℕ} (A : Matrix (Fin n) (Fin n) ℚ) :
    Matrix (Fin n) (Fin n) ℚ :=
  (A.det)⁻¹ • A.adjugate

/-- The fields of the `ADEROperators` container
(src/solver/ADERDG.py, lines 170-184) that the space-time system uses:
the temporal flux matrices `FTL` (space-time against itself at the top of
the slab) and `FTR` (space-time against the spatial basis at the bottom),
the temporal stiffness matrix `SMT`, the assembled system matrix `K` and
its stored inverse `iK`. -/
structure ADEROperators (n m : ℕ) where
  FTL : Matrix (Fin n) (Fin n) ℚ
  FTR : Matrix (Fin n) (Fin m) ℚ
  SMT : Matrix (Fin n) (Fin n) ℚ
  K : Matrix (Fin n) (Fin n) ℚ
  iK : Matrix (Fin n) (Fin n) ℚ

/-- Embedding of `ADEROperators.calc_ader_matrices` (src/solver/ADERDG.py,
lines 186-223).  The temporal flux and stiffness matrices are produced by
`numerics.basis.ader_tools` (not among the sources at hand) from the mesh,
the bases, the time step and the order alone — never from the solution
state or per-element physics — and enter here as inputs; the routine then
stores `K = FTL - SMT` and `iK = np.linalg.inv(K)`. -/
def calc_ader_matrices {n m : ℕ} (FTL : Matrix (Fin n) (Fin n) ℚ)
    (FTR : Matrix (Fin n) (Fin m) ℚ) (SMT : Matrix (Fin n) (Fin n) ℚ) :
    ADEROperators n m :=
  { FTL := FTL, FTR := FTR, SMT := SMT, K := FTL - SMT,
    iK := np_linalg_inv (FTL - SMT) }

/-- The ADER solver state relevant to the operator-lifetime property: the
precomputed operator container and the solution data. -/
structure ADERSolverState (n m : ℕ) (σ : Type) where
  ader_operators : ADEROperators n m
  U : σ

/-- Embedding of `ADERDG.precompute_matrix_operators` (src/solver/ADERDG.py,
lines 384-410) restricted to the ADER operator container: it is built
exactly once during solver setup and receives no solution data. -/
def precompute_matrix_operators {n m : ℕ} {σ : Type}
    (FTL : Matrix (Fin n) (Fin n) ℚ) (FTR : Matrix (Fin n) (Fin m) ℚ)
    (SMT : Matrix (Fin n) (Fin n) ℚ) (U0 : σ) : ADERSolverState n m σ :=
  { ader_operators := calc_ader_matrices FTL FTR SMT, U := U0 }

/-- Modelled from the spec: one outer ADER time step (predictor plus
corrector; the stepper and `solver/ader_tools.py` are not among the sources
at hand).  A step updates the solution using the precomputed operators
read-only; it never recomputes or refactorises them. -/
def ader_time_step {n m : ℕ} {σ : Type}
    (stepU : ADEROperators n m → σ → σ) (s : ADERSolverState n m σ) :
    ADERSolverState n m σ :=
  { s with U := stepU s.ader_operators s.U }

/-- Modelled from the spec: the predictor seed repeats the spatial
coefficient vector across all temporal levels of the space-time basis
(coefficients indexed by a temporal level and a spatial basis function). -/
def tile_time {nt m : ℕ} (W : Fin m → ℚ) : Fin nt × Fin m → ℚ :=
  fun i => W i.2

/-- Modelled from the spec: one fixed-point (Picard) iteration of the ADER
predictor of `solver/ader_tools.py` (not among the sources at hand; set as
`calculate_predictor_elem` by `set_source_treatment`): evaluate the
flux/source right-hand contribution at the current space-time coefficients
(`rhs`, already projected onto the space-time basis and scaled by the time
step), add the prior-level temporal flux `FTR·W`, and apply the
precomputed `iK`. -/
def predictor_iteration {nt m : ℕ}
    (iK : Matrix (Fin nt × Fin m) (Fin nt × Fin m) ℚ)
    (FTR : Matrix (Fin nt × Fin m) (Fin m) ℚ)
    (rhs : ℚ → (Fin nt × Fin m → ℚ) → Fin nt × Fin m → ℚ)
    (dt : ℚ) (W : Fin m → ℚ) (Up : Fin nt × Fin m → ℚ) :
    Fin nt × Fin m → ℚ :=
  iK.mulVec (FTR.mulVec W + rhs dt Up)

/-- Modelled from the spec: the per-element ADER predictor seeds the
space-time coefficients with the tiled spatial state and runs a fixed
number of fixed-point iterations (no convergence check). -/
def calculate_predictor_elem {nt m : ℕ}
    (iK : Matrix (Fin nt × Fin m) (Fin nt × Fin m) ℚ)
    (FTR : Matrix (Fin nt × Fin m) (Fin m) ℚ)
    (rhs : ℚ → (Fin nt × Fin m → ℚ) → Fin nt × Fin m → ℚ)
    (niter : ℕ) (dt : ℚ) (W : Fin m → ℚ) : Fin nt × Fin m → ℚ :=
  (predictor_iteration iK FTR rhs dt W)^[niter] (tile_time W)

/-- Embedding of `ADERDG.calculate_predictor_step` (src/solver/ADERDG.py,
lines 412-431): the per-element predictor applied to every element's
spatial state. -/
def calculate_predictor_step {nt m : ℕ}
    (iK : Matrix (Fin nt × Fin m) (Fin nt × Fin m) ℚ)
    (FTR : Matrix (Fin nt × Fin m) (Fin m) ℚ)
    (rhs : ℚ → (Fin nt × Fin m → ℚ) → Fin nt × Fin m → ℚ)
    (niter : ℕ) (dt : ℚ) (W : List (Fin m → ℚ)) :
    List (Fin nt × Fin m → ℚ) :=
  W.map (calculate_predictor_elem iK FTR rhs niter dt)

/-- Concrete temporal flux matrix `FTL` for one spatial basis function and
two temporal levels (nodal linear basis in time on the unit slab). -/
def wFTL : Matrix (Fin 2) (Fin 2) ℚ := !![0, 0; 0, 1]

/-- Concrete temporal stiffness matrix `SMT` for the same basis. -/
def wSMT : Matrix (Fin 2) (Fin 2) ℚ := !![-(1/2), -(1/2); 1/2, 1/2]

/-- Concrete prior-level temporal flux matrix `FTR` for the same basis. -/
def wFTRmat : Matrix (Fin 2) (Fin 1) ℚ := !![1; 0]

/-- Concrete ADER system matrix on space-time indices (two temporal levels,
one spatial basis function): the matrix `FTL - SMT` of the basis above. -/
def wK : Matrix (Fin 2 × Fin 1) (Fin 2 × Fin 1) ℚ :=
  Matrix.of fun i j => !![(1:ℚ)/2, 1/2; -(1/2), 1/2] i.1 j.1

/-- Concrete inverse of `wK`. -/
def wiK : Matrix (Fin 2 × Fin 1) (Fin 2 × Fin 1) ℚ :=
  Matrix.of fun i j => !![(1:ℚ), -1; 1, 1] i.1 j.1

/-- Concrete prior-level temporal flux matrix on space-time indices. -/
def wFTRst : Matrix (Fin 2 × Fin 1) (Fin 1) ℚ :=
  Matrix.of fun i _ => if i.1 = 0 then 1 else 0

/-- Total over basis functions and state components of a boundary-integral
contraction, rewritten as a quadrature sum weighted by the column sums of
the basis table. -/
theorem contraction_total {nq nb ns : ℕ}
    (basis : Fin nq → Fin nb → ℚ) (w : Fin nq → ℚ) (Fq : Fin nq → Fin ns → ℚ) :
    (∑ k : Fin nb, ∑ s : Fin ns,
        calculate_inviscid_flux_boundary_integral basis w Fq k s) =
      ∑ q : Fin nq, (∑ k : Fin nb, basis q k) * (w q * ∑ s : Fin ns, Fq q s) := by
  unfold calculate_inviscid_flux_boundary_integral
  calc (∑ k : Fin nb, ∑ s : Fin ns, ∑ q : Fin nq, basis q k * w q * Fq q s)
      = ∑ k : Fin nb, ∑ q : Fin nq, ∑ s : Fin ns, basis q k * w q * Fq q s :=
        Finset.sum_congr rfl fun k _ => Finset.sum_comm
    _ = ∑ q : Fin nq, ∑ k : Fin nb, ∑ s : Fin ns, basis q k * w q * Fq q s :=
        Finset.sum_comm
    _ = ∑ q : Fin nq, (∑ k : Fin nb, basis q k) * (w q * ∑ s : Fin ns, Fq q s) := by
        refine Finset.sum_congr rfl fun q _ => ?_
        rw [Finset.sum_mul]
        refine Finset.sum_congr rfl fun k _ => ?_
        rw [Finset.mul_sum, Finset.mul_sum]
        refine Finset.sum_congr rfl fun s _ => ?_
        ring

/-- Claim C1: for every interior face, both interior-face residual routines
(`DG.get_interior_face_residual` and `ADERDG.calculate_residual_iface`)
compute one single numerical flux array `Fq`, subtract its boundary-integral
contraction from the left element's residual and add it to the right
element's residual; consequently, whenever the left and right face basis
tables have equal column sums at each quadrature point (which holds for any
partition-of-unity basis), the total face contribution to the left residual
plus the total face contribution to the right residual is zero, for any
numerical flux function. -/
theorem C1_interior_face_single_flux_antisymmetry
    {nq nb nbst ns dim : ℕ}
    (faces_to_basisL faces_to_basisR : ℕ → Fin nq → Fin nb → ℚ)
    (faces_to_basisL_st faces_to_basisR_st : ℕ → Fin nq → Fin nbst → ℚ)
    (quad_wts : Fin nq → ℚ)
    (numflux : (Fin nq → Fin ns → ℚ) → (Fin nq → Fin ns → ℚ) →
      (Fin nq → Fin dim → ℚ) → Fin nq → Fin ns → ℚ)
    (normals : Fin nq → Fin dim → ℚ)
    (faceL faceR : ℕ)
    (Uc_L Uc_R : Fin nb → Fin ns → ℚ)
    (UpL UpR : Fin nbst → Fin ns → ℚ)
    (R_L R_R : Fin nb → Fin ns → ℚ)
    (hpou : ∀ q, (∑ k, faces_to_basisL faceL q k) =
      ∑ k, faces_to_basisR faceR q k)
    (hfL : faceL = 0 ∨ faceL = 1) (hfR : faceR = 0 ∨ faceR = 1) :
    (dg_get_interior_face_residual true faces_to_basisL faces_to_basisR
        quad_wts numflux normals faceL faceR Uc_L Uc_R R_L R_R =
      (fun k s => R_L k s - calculate_inviscid_flux_boundary_integral
          (faces_to_basisL faceL) quad_wts
          (numflux (evaluate_state Uc_L (faces_to_basisL faceL))
            (evaluate_state Uc_R (faces_to_basisR faceR)) normals) k s,
       fun k s => R_R k s + calculate_inviscid_flux_boundary_integral
          (faces_to_basisR faceR) quad_wts
          (numflux (evaluate_state Uc_L (faces_to_basisL faceL))
            (evaluate_state Uc_R (faces_to_basisR faceR)) normals) k s)) ∧
    ((∑ k, ∑ s, ((dg_get_interior_face_residual true faces_to_basisL
        faces_to_basisR quad_wts numflux normals faceL faceR Uc_L Uc_R
        R_L R_R).1 k s - R_L k s)) +
     (∑ k, ∑ s, ((dg_get_interior_face_residual true faces_to_basisL
        faces_to_basisR quad_wts numflux normals faceL faceR Uc_L Uc_R
        R_L R_R).2 k s - R_R k s)) = 0) ∧
    (ader_calculate_residual_iface true faces_to_basisL faces_to_basisR
        faces_to_basisL_st faces_to_basisR_st quad_wts numflux normals
        faceL faceR UpL UpR R_L R_R =
      Except.ok
        (fun k s => R_L k s - calculate_inviscid_flux_boundary_integral
            (faces_to_basisL faceL) quad_wts
            (numflux
              (evaluate_state UpL
                (faces_to_basisL_st (if faceL = 0 then 3 else 1)))
              (evaluate_state UpR
                (faces_to_basisR_st (if faceR = 0 then 3 else 1)))
              normals) k s,
         fun k s => R_R k s + calculate_inviscid_flux_boundary_integral
            (faces_to_basisR faceR) quad_wts
            (numflux
              (evaluate_state UpL
                (faces_to_basisL_st (if faceL = 0 then 3 else 1)))
              (evaluate_state UpR
                (faces_to_basisR_st (if faceR = 0 then 3 else 1)))
              normals) k s)) ∧
    (∀ AL AR : Fin nb → Fin ns → ℚ,
      ader_calculate_residual_iface true faces_to_basisL faces_to_basisR
          faces_to_basisL_st faces_to_basisR_st quad_wts numflux normals
          faceL faceR UpL UpR R_L R_R = Except.ok (AL, AR) →
        (∑ k, ∑ s, (AL k s - R_L k s)) +
          (∑ k, ∑ s, (AR k s - R_R k s)) = 0) := by
  have hsum : ∀ (Fq : Fin nq → Fin ns → ℚ),
      (∑ k, ∑ s, ((R_L k s - calculate_inviscid_flux_boundary_integral
          (faces_to_basisL faceL) quad_wts Fq k s) - R_L k s)) +
        (∑ k, ∑ s, ((R_R k s + calculate_inviscid_flux_boundary_integral
          (faces_to_basisR faceR) quad_wts Fq k s) - R_R k s)) = 0 := by
    intro Fq
    have hL : (∑ k, ∑ s, ((R_L k s - calculate_inviscid_flux_boundary_integral
        (faces_to_basisL faceL) quad_wts Fq k s) - R_L k s)) =
        -(∑ k, ∑ s, calculate_inviscid_flux_boundary_integral
          (faces_to_basisL faceL) quad_wts Fq k s) := by
      rw [← Finset.sum_neg_distrib]
      refine Finset.sum_congr rfl fun k _ => ?_
      rw [← Finset.sum_neg_distrib]
      refine Finset.sum_congr rfl fun s _ => ?_
      ring
    have hR : (∑ k, ∑ s, ((R_R k s + calculate_inviscid_flux_boundary_integral
        (faces_to_basisR faceR) quad_wts Fq k s) - R_R k s)) =
        (∑ k, ∑ s, calculate_inviscid_flux_boundary_integral
          (faces_to_basisR faceR) quad_wts Fq k s) := by
      refine Finset.sum_congr rfl fun k _ => ?_
      refine Finset.sum_congr rfl fun s _ => ?_
      ring
    rw [hL, hR, contraction_total, contraction_total]
    have heq : (∑ q : Fin nq, (∑ k, faces_to_basisL faceL q k) *
        (quad_wts q * ∑ s, Fq q s)) =
        ∑ q : Fin nq, (∑ k, faces_to_basisR faceR q k) *
        (quad_wts q * ∑ s, Fq q s) :=
      Finset.sum_congr rfl fun q _ => by rw [hpou q]
    rw [heq]
    ring
  have hdg : dg_get_interior_face_residual true faces_to_basisL
      faces_to_basisR quad_wts numflux normals faceL faceR Uc_L Uc_R
      R_L R_R =
      (fun k s => R_L k s - calculate_inviscid_flux_boundary_integral
          (faces_to_basisL faceL) quad_wts
          (numflux (evaluate_state Uc_L (faces_to_basisL faceL))
            (evaluate_state Uc_R (faces_to_basisR faceR)) normals) k s,
       fun k s => R_R k s + calculate_inviscid_flux_boundary_integral
          (faces_to_basisR faceR) quad_wts
          (numflux (evaluate_state Uc_L (faces_to_basisL faceL))
            (evaluate_state Uc_R (faces_to_basisR faceR)) normals) k s) := rfl
  have hader : ader_calculate_residual_iface true faces_to_basisL
      faces_to_basisR faces_to_basisL_st faces_to_basisR_st quad_wts numflux
      normals faceL faceR UpL UpR R_L R_R =
      Except.ok
        (fun k s => R_L k s - calculate_inviscid_flux_boundary_integral
            (faces_to_basisL faceL) quad_wts
            (numflux
              (evaluate_state UpL
                (faces_to_basisL_st (if faceL = 0 then 3 else 1)))
              (evaluate_state UpR
                (faces_to_basisR_st (if faceR = 0 then 3 else 1)))
              normals) k s,
         fun k s => R_R k s + calculate_inviscid_flux_boundary_integral
            (faces_to_basisR faceR) quad_wts
            (numflux
              (evaluate_state UpL
                (faces_to_basisL_st (if faceL = 0 then 3 else 1)))
              (evaluate_state UpR
                (faces_to_basisR_st (if faceR = 0 then 3 else 1)))
              normals) k s) := by
    rcases hfL with rfl | rfl <;> rcases hfR with rfl | rfl <;> rfl
  refine ⟨hdg, ?_, hader, ?_⟩
  · rw [hdg]
    exact hsum _
  · intro AL AR h
    rw [hader] at h
    have hpair := Except.ok.inj h
    have hAL : AL = fun k s => R_L k s -
        calculate_inviscid_flux_boundary_integral (faces_to_basisL faceL)
          quad_wts
          (numflux
            (evaluate_state UpL
              (faces_to_basisL_st (if faceL = 0 then 3 else 1)))
            (evaluate_state UpR
              (faces_to_basisR_st (if faceR = 0 then 3 else 1)))
            normals) k s := (congrArg Prod.fst hpair).symm
    have hAR : AR = fun k s => R_R k s +
        calculate_inviscid_flux_boundary_integral (faces_to_basisR faceR)
          quad_wts
          (numflux
            (evaluate_state UpL
              (faces_to_basisL_st (if faceL = 0 then 3 else 1)))
            (evaluate_state UpR
              (faces_to_basisR_st (if faceR = 0 then 3 else 1)))
            normals) k s := (congrArg Prod.snd hpair).symm
    rw [hAL, hAR]
    exact hsum _

/-- Witness for C1: the interior-face antisymmetry theorem evaluated on a
concrete two-basis-function, one-quadrature-point face with equal left and
right tables, a flux summing both traces, and zero incoming residuals. -/
theorem C1_interior_face_single_flux_antisymmetry_witness :
    (∀ q : Fin 1, (∑ k, wBasisHalf 0 q k) = ∑ k, wBasisHalf 0 q k) ∧
    ((∑ k, ∑ s, ((dg_get_interior_face_residual true wBasisHalf wBasisHalf
        wq1 wFluxSum (wScal 1) 0 0 (wConst2 1) (wConst2 2) (wConst2 0)
        (wConst2 0)).1 k s - wConst2 0 k s)) +
     (∑ k, ∑ s, ((dg_get_interior_face_residual true wBasisHalf wBasisHalf
        wq1 wFluxSum (wScal 1) 0 0 (wConst2 1) (wConst2 2) (wConst2 0)
        (wConst2 0)).2 k s - wConst2 0 k s)) = 0) :=
  ⟨fun _ => rfl,
   (C1_interior_face_single_flux_antisymmetry wBasisHalf wBasisHalf
      wBasisOne wBasisOne wq1 wFluxSum (wScal 1) 0 0 (wConst2 1) (wConst2 2)
      (wConst2 0) (wConst2 0) (wConst2 0) (wConst2 0) (fun _ => rfl)
      (Or.inl rfl) (Or.inl rfl)).2.1⟩

/-- Claim C3: for every local face index, the precomputed right-side face
basis table is the face basis evaluated at the face quadrature points in
reversed order relative to the left-side table: row `i` of the right table
equals row `length - 1 - i` of the left table, so the two tables traverse
the same points index-for-index in opposite orientations. -/
theorem C3_right_face_table_is_reversed {P : Type} {nb : ℕ}
    (faceVal : ℕ → P → Fin nb → ℚ) (quad_pts : List P) (face_ID : ℕ)
    (i : Fin quad_pts.length) (k : Fin nb) :
    faces_to_basisR_build faceVal quad_pts face_ID i k =
      faces_to_basisL_build faceVal quad_pts face_ID
        ⟨quad_pts.length - 1 - i.val, by have := i.isLt; omega⟩ k := by
  unfold faces_to_basisR_build faces_to_basisL_build
  congr 1
  rw [List.get_eq_getElem, List.get_eq_getElem, List.getElem_reverse]

/-- Entries of a zeroed array are zero at every index (out-of-range reads
return the zero default). -/
theorem zero_like_getD {α : Type} [Zero α] (l : List α) (e : ℕ) :
    (zero_like l).getD e 0 = 0 := by
  cases h : l[e]? <;> simp [zero_like, List.getD, h]

/-- Zeroing keeps the array length. -/
theorem zero_like_length {α : Type} [Zero α] (l : List α) :
    (zero_like l).length = l.length := by
  simp [zero_like]

/-- Writing back the value just read leaves a list unchanged. -/
theorem set_getD_self {α : Type} [Zero α] (l : List α) (n : ℕ) :
    l.set n (l.getD n 0) = l := by
  induction l generalizing n with
  | nil => rfl
  | cons a t ih =>
    cases n with
    | zero => rfl
    | succ k =>
      show a :: t.set k (t.getD k 0) = a :: t
      rw [ih k]

/-- A fold whose step fixes every accumulator returns the accumulator. -/
theorem foldl_preserved {β γ : Type _} (f : γ → β → γ) (l : List β) (acc : γ)
    (h : ∀ a x, f a x = a) : l.foldl f acc = acc := by
  induction l generalizing acc with
  | nil => rfl
  | cons a t ih => rw [List.foldl_cons, h, ih]

/-- Claim C2: every call to `calculate_residual(U, R)` first sets the
residual array entirely to zero, then accumulates the boundary-face
contributions, then the element contributions, then the interior-face
contributions, in that fixed order, and returns the completed array. -/
theorem C2_residual_assembly_zeroes_then_fixed_order {α : Type} [Zero α]
    (s : SolverMethods α) (m : MeshTopology) (U : List α)
    (Ropt : Option (List α)) (Sq : α) :
    (calculate_residual s m U Ropt Sq).R =
      calculate_residual_ifaces s m U
        (calculate_residual_elems s m U
          (calculate_residual_bfaces s m U (zero_like (Ropt.getD U)))
          Sq).1 ∧
    (∀ e : ℕ, (zero_like (Ropt.getD U)).getD e 0 = 0) :=
  ⟨rfl, fun e => zero_like_getD _ e⟩

/-- Claim C4: with the convective-flux and source switches both disabled,
`DG.get_element_residual` returns its input residual (and scratch array)
unchanged, and the full residual assembly returns exactly the zero array of
the state array's shape: disabled terms contribute exactly zero over an
explicitly zero-initialised residual. -/
theorem C4_disabled_switches_give_zero_residual {nq nb ns dim : ℕ}
    (faces_to_basisL faces_to_basisR : ℕ → Fin nq → Fin nb → ℚ)
    (quad_wts : Fin nq → ℚ)
    (numflux : (Fin nq → Fin ns → ℚ) → (Fin nq → Fin ns → ℚ) →
      (Fin nq → Fin dim → ℚ) → Fin nq → Fin ns → ℚ)
    (normals_ifaces : ℕ → Fin nq → Fin dim → ℚ)
    (face_ids : ℕ → ℕ × ℕ)
    (fluxVolumeIntegral sourceEval sourceIntegral :
      ℕ → (Fin nb → Fin ns → ℚ) → Fin nb → Fin ns → ℚ)
    (bfaceFluxIntegral : ℕ → ℕ → (Fin nb → Fin ns → ℚ) → Fin nb → Fin ns → ℚ)
    (m : MeshTopology) (U : List (Fin nb → Fin ns → ℚ))
    (Ropt : Option (List (Fin nb → Fin ns → ℚ)))
    (Sq : Fin nb → Fin ns → ℚ) :
    (∀ (elem_ID : ℕ) (Uc R S : Fin nb → Fin ns → ℚ),
      dg_get_element_residual false false fluxVolumeIntegral sourceEval
        sourceIntegral elem_ID Uc R S = (R, S)) ∧
    (calculate_residual
        (dg_solver_methods false false faces_to_basisL faces_to_basisR
          quad_wts numflux normals_ifaces face_ids fluxVolumeIntegral
          sourceEval sourceIntegral bfaceFluxIntegral)
        m U Ropt Sq).R = zero_like (Ropt.getD U) ∧
    (∀ e : ℕ, (zero_like (Ropt.getD U)).getD e 0 = 0) := by
  set dgm := dg_solver_methods false false faces_to_basisL faces_to_basisR
    quad_wts numflux normals_ifaces face_ids fluxVolumeIntegral sourceEval
    sourceIntegral bfaceFluxIntegral with hdgm
  have hbf : ∀ R : List (Fin nb → Fin ns → ℚ),
      calculate_residual_bfaces dgm m U R = R := by
    intro R
    unfold calculate_residual_bfaces
    refine foldl_preserved _ _ _ fun acc bg => ?_
    refine foldl_preserved _ _ _ fun acc2 bf => ?_
    show acc2.set bf.2.elem_ID
      (dg_get_boundary_face_residual false bfaceFluxIntegral bg.1 bf.1
        (U.getD bf.2.elem_ID 0) (acc2.getD bf.2.elem_ID 0)) = acc2
    exact set_getD_self acc2 bf.2.elem_ID
  have hel : ∀ (R : List (Fin nb → Fin ns → ℚ)) (S : Fin nb → Fin ns → ℚ),
      calculate_residual_elems dgm m U R S = (R, S) := by
    intro R S
    unfold calculate_residual_elems
    refine foldl_preserved _ _ _ fun acc e => ?_
    show (acc.1.set e (acc.1.getD e 0), acc.2) = acc
    rw [set_getD_self]
  have hif : ∀ R : List (Fin nb → Fin ns → ℚ),
      calculate_residual_ifaces dgm m U R = R := by
    intro R
    unfold calculate_residual_ifaces
    refine foldl_preserved _ _ _ fun acc f => ?_
    show (acc.set f.2.elemL_ID (acc.getD f.2.elemL_ID 0)).set f.2.elemR_ID
      (acc.getD f.2.elemR_ID 0) = acc
    rw [set_getD_self]
    exact set_getD_self acc f.2.elemR_ID
  refine ⟨fun _ _ _ _ => rfl, ?_, fun e => zero_like_getD _ e⟩
  show calculate_residual_ifaces dgm m U
      (calculate_residual_elems dgm m U
        (calculate_residual_bfaces dgm m U (zero_like (Ropt.getD U)))
        Sq).1 = zero_like (Ropt.getD U)
  rw [hbf, hel, hif]

/-- Counterexample for C10: the residual array is not the only array a full
assembly pass writes to.  On a concrete one-element mesh with the source
switch on, `DG.get_element_residual` executes `Sq[:] = 0.` and repopulates
the preallocated scratch array `elem_helpers.Sq`, so after the pass the
scratch array's entry differs from its prior value 5. -/
theorem C10_counterexample_scratch_array_written :
    (calculate_residual wMethods wMesh1 [wScal 3] none (wScal 5)).Sq 0 0 ≠
      wScal 5 0 0 := by
  have h1 : List.range 1 = [0] := rfl
  simp [calculate_residual, calculate_residual_bfaces, calculate_residual_elems,
    calculate_residual_ifaces, wMesh1, wMethods, dg_solver_methods,
    dg_get_element_residual, dg_get_boundary_face_residual, zero_like, wScal,
    wq1, h1]

/-- Claim C10, amended: a `calculate_residual(U, None)` call allocates a
fresh residual array of exactly the state array's shape and zeroes it
before assembly, and the state array `U` is left unchanged by the pass; the
pass additionally writes the preallocated scratch arrays (such as the
source scratch `Sq`), so the residual is not the only array written. -/
theorem C10_fresh_zero_residual_and_state_frame {α : Type} [Zero α]
    (s : SolverMethods α) (m : MeshTopology) (U : List α) (Sq : α) :
    (calculate_residual s m U none Sq).U = U ∧
    (zero_like U).length = U.length ∧
    (∀ e : ℕ, (zero_like U).getD e 0 = 0) :=
  ⟨rfl, zero_like_length U, fun e => zero_like_getD U e⟩

/-- Claim C8: every configuration exhibiting one of the listed
basis/shape/quadrature incompatibilities makes solver construction raise
`IncompatibleError` during setup, returning no (partial) solver object, and
every configuration passing the setup checks constructs a solver without
raising: construction succeeds exactly on compatible configurations, and
its only outcomes are the raised `IncompatibleError` or the fully
constructed solver. -/
theorem C8_setup_checks_gate_construction (c : SolverConfig) :
    ((solver_base_construct c).isOk = true ↔ ¬ base_incompatible c) ∧
    ((ader_solver_construct c).isOk = true ↔ ader_compatible c) ∧
    (match solver_base_construct c with
      | Except.error e => e = PyErr.incompatibleError
      | Except.ok s => s = { config := c, operators_precomputed := true }) ∧
    (match ader_solver_construct c with
      | Except.error e => e = PyErr.incompatibleError
      | Except.ok s => s = { config := c, operators_precomputed := true }) := by
  by_cases h1 : c.gbasis_shape = c.basis_shape <;>
  by_cases h2 : c.interpolate_ic = true <;>
  by_cases hm : c.basis_modality = BasisModality.Nodal <;>
  by_cases h3 : c.node_type = NodeKind.GaussLobatto <;>
  by_cases h4 : c.basis_shape = ShapeKind.Triangle <;>
  by_cases h5 : c.interpolate_flux = true <;>
  by_cases h6 : c.time_scheme = StepperKind.ADER <;>
  simp_all [solver_base_construct, ader_solver_construct,
    ader_check_compatibility, check_compatibility, base_incompatible,
    ader_compatible, Except.isOk, Except.toBool, Except.instMonad, Bind.bind,
    Except.bind, Pure.pure, Except.pure, throw, throwThe,
    MonadExceptOf.throw]

/-- Counterexample for C9: called on a face with local id 2,
`ADERDG.calculate_residual_iface` does not return the exception class as an
ordinary value — the `return IncompatibleError` statement evaluates a name
unbound in the module, so the call raises `NameError`: an exception does
propagate to the caller. -/
theorem C9_counterexample_nameerror_propagates :
    ader_calculate_residual_iface true wBasisHalf wBasisHalf wBasisOne
      wBasisOne wq1 wFluxSum (wScal 1) 2 0 (wConst2 0) (wConst2 0)
      (wConst2 0) (wConst2 0) = Except.error PyErr.nameError := rfl

/-- Claim C9, amended: in the ADER-DG solver, for every interior or
boundary face whose local face index is neither 0 nor 1,
`calculate_residual_iface` (for either the left or the right local id) and
`calculate_residual_bface` evaluate the unbound module-level name
`IncompatibleError`, so a `NameError` exception propagates to the caller
(the exception class is not returned as an ordinary value), and no residual
contribution is accumulated for that face. -/
theorem C9_nonstandard_face_id_raises_nameerror {nq nb nbst ns dim : ℕ}
    (convFluxSwitch : Bool)
    (faces_to_basisL faces_to_basisR : ℕ → Fin nq → Fin nb → ℚ)
    (faces_to_basisL_st faces_to_basisR_st : ℕ → Fin nq → Fin nbst → ℚ)
    (faces_to_basis : ℕ → Fin nq → Fin nb → ℚ)
    (faces_to_basis_st : ℕ → Fin nq → Fin nbst → ℚ)
    (quad_wts_st : Fin nq → ℚ)
    (numflux : (Fin nq → Fin ns → ℚ) → (Fin nq → Fin ns → ℚ) →
      (Fin nq → Fin dim → ℚ) → Fin nq → Fin ns → ℚ)
    (normals : Fin nq → Fin dim → ℚ)
    (boundary_flux : (Fin nq → Fin ns → ℚ) → Fin nq → Fin ns → ℚ)
    (UpL UpR U : Fin nbst → Fin ns → ℚ)
    (RL RR R : Fin nb → Fin ns → ℚ)
    (badface bface_id : ℕ)
    (hL0 : badface ≠ 0) (hL1 : badface ≠ 1)
    (hb0 : bface_id ≠ 0) (hb1 : bface_id ≠ 1) :
    (∀ fR : ℕ, ader_calculate_residual_iface convFluxSwitch faces_to_basisL
      faces_to_basisR faces_to_basisL_st faces_to_basisR_st quad_wts_st
      numflux normals badface fR UpL UpR RL RR =
        Except.error PyErr.nameError) ∧
    (∀ fL : ℕ, fL = 0 ∨ fL = 1 → ader_calculate_residual_iface convFluxSwitch
      faces_to_basisL faces_to_basisR faces_to_basisL_st faces_to_basisR_st
      quad_wts_st numflux normals fL badface UpL UpR RL RR =
        Except.error PyErr.nameError) ∧
    ader_calculate_residual_bface convFluxSwitch faces_to_basis
      faces_to_basis_st quad_wts_st boundary_flux bface_id U R =
        Except.error PyErr.nameError := by
  have hfL : face_index_spacetime badface = Except.error PyErr.nameError := by
    simp [face_index_spacetime, hL0, hL1]
  have hfB : face_index_spacetime bface_id = Except.error PyErr.nameError := by
    simp [face_index_spacetime, hb0, hb1]
  refine ⟨fun fR => ?_, fun fL hfl => ?_, ?_⟩
  · unfold ader_calculate_residual_iface
    rw [hfL]
    rfl
  · rcases hfl with rfl | rfl <;>
      (unfold ader_calculate_residual_iface; rw [hfL]) <;> rfl
  · unfold ader_calculate_residual_bface
    rw [hfB]
    rfl

/-- Witness for C9: the amended theorem evaluated at the concrete face ids
2 (interior) and 3 (boundary) with concrete tables and states. -/
theorem C9_nonstandard_face_id_witness :
    ader_calculate_residual_bface true wBasisHalf wBasisOne wq1
      (fun u => u) 3 (wConst2 0) (wConst2 0) =
      Except.error PyErr.nameError :=
  (C9_nonstandard_face_id_raises_nameerror true wBasisHalf wBasisHalf
    wBasisOne wBasisOne wBasisHalf wBasisOne wq1 wFluxSum (wScal 1)
    (fun u => u) (wConst2 0) (wConst2 0) (wConst2 0) (wConst2 0) (wConst2 0)
    (wConst2 0) 2 3 (by decide) (by decide) (by decide) (by decide)).2.2

/-- Counterexample for C7: the THINC flux path does replace state values.
With the external `exp`/`log`/`tanh` instantiated (exp as the constant 2,
log as the constant 0, tanh as the identity) and interface states 1/2 and
3/5, the reconstruction condition holds and the left state entry left in
the caller's array differs from the input 1/2: the evaluation path has
silently replaced a state value. -/
theorem C7_counterexample_thinc_replaces_state :
    (laxfriedrichs_thinc_compute_flux (fun _ => 2) (fun _ => 0) (fun x => x)
      (fun u => u) (fun u => u) 1 (1/2) (3/5)).2.1 ≠ 1/2 := by
  unfold laxfriedrichs_thinc_compute_flux thinc_reconstruct_L
  norm_num
  constructor <;> norm_num [abs]

/-- Claim C7, amended: non-finite flux/source detection is delegated to the
physics collaborator (`compute_variable` with `flag_non_physical=True`);
the THINC flux path, however, clamps the interface states to `[0, 1]` and
overwrites them in place with reconstructed values whenever the clamped
state is at least `1e-3` away from 0 and 1 — the states pass through
unchanged, and the flux is the plain local Lax-Friedrichs flux of the
original states, exactly when the reconstruction conditions fail. -/
theorem C7_thinc_passthrough_only_when_condition_fails
    (npexp nplog nptanh flux_projected max_wave_speed : ℚ → ℚ)
    (n_mag uL uR : ℚ)
    (hL : ¬((1:ℚ)/1000 < |min 1 (max 0 uL)| ∧
      (1:ℚ)/1000 < |min 1 (max 0 uL) - 1|))
    (hR : ¬((1:ℚ)/1000 < |min 1 (max 0 uR)| ∧
      (1:ℚ)/1000 < |min 1 (max 0 uR) - 1|)) :
    thinc_reconstruct_L npexp nplog nptanh uL uR = uL ∧
    thinc_reconstruct_R npexp nplog nptanh uL uR = uR ∧
    laxfriedrichs_thinc_compute_flux npexp nplog nptanh flux_projected
      max_wave_speed n_mag uL uR =
      (n_mag*((1/2)*(flux_projected uL + flux_projected uR) -
        (1/2)*(max (max_wave_speed uL) (max_wave_speed uR))*(uR - uL)),
       uL, uR) := by
  have h1 : thinc_reconstruct_L npexp nplog nptanh uL uR = uL := by
    unfold thinc_reconstruct_L
    exact if_neg hL
  have h2 : thinc_reconstruct_R npexp nplog nptanh uL uR = uR := by
    unfold thinc_reconstruct_R
    exact if_neg hR
  refine ⟨h1, h2, ?_⟩
  unfold laxfriedrichs_thinc_compute_flux
  rw [h1, h2]

/-- Witness for C7: the pass-through characterisation evaluated at the
states 0 and 1, whose clamped values sit on the interval endpoints so both
reconstruction conditions fail. -/
theorem C7_thinc_passthrough_witness :
    laxfriedrichs_thinc_compute_flux (fun x => x) (fun x => x) (fun x => x)
      (fun u => u) (fun _ => 1) 1 0 1 =
      ((1:ℚ)*((1/2)*((0:ℚ) + 1) - (1/2)*(max (1:ℚ) 1)*(1 - 0)),
       (0:ℚ), (1:ℚ)) :=
  (C7_thinc_passthrough_only_when_condition_fails (fun x => x) (fun x => x)
    (fun x => x) (fun u => u) (fun _ => 1) 1 0 1 (by norm_num)
    (by norm_num)).2.2

/-- Claim C5: the ADER space-time system matrix `K` is computed at solver
setup as the difference of the temporal flux matrix and the temporal
stiffness matrix, `K = FTL - SMT`, from basis/mesh data alone (the
construction takes no solution or per-element physics input); its stored
inverse `iK` is a genuine two-sided inverse, and the operator container is
reused unchanged over any number of subsequent time steps — no
refactorisation ever happens after setup. -/
theorem C5_system_matrix_precomputed_and_reused {n m : ℕ} {σ : Type}
    (FTL : Matrix (Fin n) (Fin n) ℚ) (FTR : Matrix (Fin n) (Fin m) ℚ)
    (SMT : Matrix (Fin n) (Fin n) ℚ) (U0 : σ)
    (stepU : ADEROperators n m → σ → σ) (nsteps : ℕ)
    (hdet : (FTL - SMT).det ≠ 0) :
    ((precompute_matrix_operators FTL FTR SMT U0).ader_operators.K =
      FTL - SMT) ∧
    ((precompute_matrix_operators FTL FTR SMT U0).ader_operators.iK *
      (FTL - SMT) = 1) ∧
    ((FTL - SMT) *
      (precompute_matrix_operators FTL FTR SMT U0).ader_operators.iK = 1) ∧
    (((ader_time_step stepU)^[nsteps]
        (precompute_matrix_operators FTL FTR SMT U0)).ader_operators =
      (precompute_matrix_operators FTL FTR SMT U0).ader_operators) := by
  have hinv1 : np_linalg_inv (FTL - SMT) * (FTL - SMT) = 1 := by
    unfold np_linalg_inv
    rw [smul_mul_assoc, Matrix.adjugate_mul, smul_smul,
      inv_mul_cancel₀ hdet, one_smul]
  have hinv2 : (FTL - SMT) * np_linalg_inv (FTL - SMT) = 1 := by
    unfold np_linalg_inv
    rw [mul_smul_comm, Matrix.mul_adjugate, smul_smul,
      inv_mul_cancel₀ hdet, one_smul]
  have hiter : ∀ (k : ℕ) (s : ADERSolverState n m σ),
      ((ader_time_step stepU)^[k] s).ader_operators = s.ader_operators := by
    intro k
    induction k with
    | zero => intro s; rfl
    | succ k ih =>
      intro s
      rw [Function.iterate_succ_apply]
      exact ih _
  exact ⟨rfl, hinv1, hinv2, hiter _ _⟩

/-- Witness for C5: the precomputation evaluated on the concrete temporal
operator matrices of a linear-in-time basis, whose system matrix has
determinant one half. -/
theorem C5_system_matrix_witness :
    ((wFTL - wSMT).det ≠ 0) ∧
    ((precompute_matrix_operators wFTL wFTRmat wSMT (0:ℚ)).ader_operators.iK *
      (wFTL - wSMT) = 1) :=
  ⟨by norm_num [wFTL, wSMT, Matrix.det_fin_two],
   (C5_system_matrix_precomputed_and_reused wFTL wFTRmat wSMT (0:ℚ)
      (fun _ u => u) 3
      (by norm_num [wFTL, wSMT, Matrix.det_fin_two])).2.1⟩

/-- Claim C6: when the flux/source right-hand side vanishes identically,
the ADER predictor returns the input spatial state repeated unchanged
across all temporal levels, for every element, every time step size and
every fixed-point iteration count, provided the stored `iK` inverts `K`
and the temporal operators satisfy the basis consistency identity
`K · tile(W) = FTR · W` (exact integration of a basis whose constant-in-time
extension reproduces the prior-level flux). -/
theorem C6_predictor_identity_on_zero_rhs {nt m : ℕ}
    (K iK : Matrix (Fin nt × Fin m) (Fin nt × Fin m) ℚ)
    (FTR : Matrix (Fin nt × Fin m) (Fin m) ℚ)
    (W : List (Fin m → ℚ)) (niter : ℕ) (dt : ℚ)
    (hiK : iK * K = 1)
    (hconsist : ∀ V : Fin m → ℚ, K.mulVec (tile_time V) = FTR.mulVec V) :
    (∀ V : Fin m → ℚ,
      calculate_predictor_elem iK FTR (fun _ _ => 0) niter dt V =
        tile_time V) ∧
    calculate_predictor_step iK FTR (fun _ _ => 0) niter dt W =
      W.map tile_time := by
  have hfix : ∀ V : Fin m → ℚ,
      predictor_iteration iK FTR (fun _ _ => 0) dt V (tile_time V) =
        tile_time V := by
    intro V
    unfold predictor_iteration
    rw [add_zero, ← hconsist V, Matrix.mulVec_mulVec, hiK,
      Matrix.one_mulVec]
  have helem : ∀ V : Fin m → ℚ,
      calculate_predictor_elem iK FTR (fun _ _ => 0) niter dt V =
        tile_time V := by
    intro V
    unfold calculate_predictor_elem
    exact Function.iterate_fixed (hfix V) niter
  refine ⟨helem, ?_⟩
  unfold calculate_predictor_step
  exact List.map_congr_left fun V _ => helem V

/-- Witness for C6: the zero-right-hand-side predictor evaluated on the
concrete linear-in-time operator pair, five iterations, a spatial state of
constant value three. -/
theorem C6_predictor_identity_witness :
    calculate_predictor_elem wiK wFTRst (fun _ _ => 0) 5 7
      (fun _ => (3:ℚ)) = tile_time (fun _ => (3:ℚ)) :=
  (C6_predictor_identity_on_zero_rhs wK wiK wFTRst [fun _ => (3:ℚ)] 5 7
    (by
      ext i j
      rcases i with ⟨it, is⟩
      rcases j with ⟨jt, js⟩
      fin_cases it <;> fin_cases jt <;> fin_cases is <;> fin_cases js <;>
        simp [wiK, wK, Matrix.mul_apply, Matrix.one_apply,
          Fintype.sum_prod_type, Fin.sum_univ_two, Prod.ext_iff,
          Fin.ext_iff] <;> norm_num)
    (by
      intro V
      ext i
      rcases i with ⟨it, is⟩
      fin_cases it <;> fin_cases is <;>
        (simp [wK, wFTRst, tile_time, Matrix.mulVec, Matrix.dotProduct,
          Fintype.sum_prod_type, Fin.sum_univ_two]; try ring))).1
    (fun _ => (3:ℚ))
